import Mathlib

set_option maxHeartbeats 1000000
set_option maxRecDepth 8000

/-!
Shallow embedding of `src/gui.c` (TuiLife): the `Screen` pixel buffer and its
sextant-glyph renderer.

Conventions of the embedding:
* C machine integers are modelled as `Nat`, with an explicit `% 256` (resp.
  `% 65536`) at every point where the C program converts a value to `uint8_t`
  (resp. `uint16_t`) — argument passing, assignment to a byte-sized field, or
  a byte-sized return value.
* A `bool*` / `uint8_t*` obtained from `calloc` is modelled as
  `Option (List Bool)` / `Option (List Nat)`; `none` models a `NULL` pointer
  (failed allocation).  Since allocation success is decided by the runtime,
  functions that call `calloc` take one explicit `Bool` per allocation telling
  whether that allocation succeeds.  The recovery re-initialization inside
  `getScreenPixel`/`setScreenPixel` is modelled with succeeding allocations.
* The `Screen*` argument is modelled by passing the `Screen` value in and out;
  the `NULL`-pointer guard branches of the C code are therefore not part of
  the model (all claims below concern non-null screens).
-/

/-- `#define SCREEN_READY 0b00000001` -/
def SCREEN_READY : Nat := 0b00000001

/-- `#define SCREEN_SUCCESS 0b00000010` -/
def SCREEN_SUCCESS : Nat := 0b00000010

/-- `#define SCREEN_ERROR 0b00000100` -/
def SCREEN_ERROR : Nat := 0b00000100

/-- `#define SCREEN_SUCCESS_BIT (SCREEN_SUCCESS << 8)` -/
def SCREEN_SUCCESS_BIT : Nat := SCREEN_SUCCESS * 256

/-- The `Screen` struct of `gui.c`. -/
structure Screen where
  status : Nat
  width : Nat
  height : Nat
  flags : Nat
  data : Option (List Bool)
  render : Option (List Nat)
deriving DecidableEq

/-- `boolsToInt`: folds the six booleans into a byte, most significant bit
first.  `result = (result << 1) | arr[i]` on a `uint8_t` accumulator is
`(result * 2 + arr[i]) % 256` (the `|` lands on a freshly cleared low bit). -/
def boolsToInt (arr : List Bool) : Nat :=
  arr.foldl (fun result b => (result * 2 + b.toNat) % 256) 0

/-- `joinReturn`: `((uint16_t)status << 8) | data` with `uint8_t` arguments;
the two bytes occupy disjoint bit lanes, so `|` is `+`. -/
def joinReturn (status data : Nat) : Nat :=
  (status % 256) * 256 + data % 256

/-- `returnError`: `((value & 0xFF00) == SCREEN_SUCCESS_BIT) ? 0 : (value >> 8)`
on a `uint16_t` argument.  For `v < 65536`, `v & 0xFF00 = v / 256 * 256` and
`v >> 8 = v / 256`. -/
def returnError (value : Nat) : Nat :=
  if (value % 65536) / 256 * 256 = SCREEN_SUCCESS_BIT then 0
  else (value % 65536) / 256

/-- `returnData`: `(uint8_t)(value & 0x00FF)` on a `uint16_t` argument. -/
def returnData (value : Nat) : Nat :=
  (value % 65536) % 256

/-- `initScreen` (non-null branch): sets `status`, `flags`, `width`, `height`,
`calloc`s the pixel and glyph arrays, and returns
`joinReturn(ret, 0x00)` where `ret` is `SCREEN_SUCCESS` unless either
allocation failed, in which case `SCREEN_ERROR`.  `dataOk`/`renderOk` tell
whether the two `calloc` calls succeed. -/
def initScreen (scr : Screen) (flags width height : Nat) (dataOk renderOk : Bool) :
    Screen × Nat :=
  let w := width % 256
  let h := height % 256
  let scr1 : Screen :=
    { scr with
      status := SCREEN_READY
      flags := flags % 256
      width := w
      height := h
      data := if dataOk then some (List.replicate (w * h) false) else none
      render := if renderOk then some (List.replicate ((w / 2 + 1) * (h / 3 + 1)) 0) else none }
  (scr1, joinReturn (if dataOk && renderOk then SCREEN_SUCCESS else SCREEN_ERROR) 0)

/-- `resizeScreen` (non-null branch): frees the old arrays (no observable
counterpart in the value model), then reallocates exactly as `initScreen`
does — but, unlike `initScreen`, it does not touch `status` or `flags`. -/
def resizeScreen (scr : Screen) (width height : Nat) (dataOk renderOk : Bool) :
    Screen × Nat :=
  let w := width % 256
  let h := height % 256
  let scr1 : Screen :=
    { scr with
      width := w
      height := h
      data := if dataOk then some (List.replicate (w * h) false) else none
      render := if renderOk then some (List.replicate ((w / 2 + 1) * (h / 3 + 1)) 0) else none }
  (scr1, joinReturn (if dataOk && renderOk then SCREEN_SUCCESS else SCREEN_ERROR) 0)

/-- `getScreenPixel` (non-null branch).  A non-`READY` screen is
re-initialized with flags `0` and size 20×20 and `0` is returned; an
out-of-range coordinate yields `0`; otherwise `scr->data[y*width+x]` is read.
The first component of the result is the screen after the call (the C code
mutates it through the pointer). -/
def getScreenPixel (scr : Screen) (x y : Nat) : Screen × Bool :=
  if scr.status ≠ SCREEN_READY then
    ((initScreen scr 0 20 20 true true).1, false)
  else if scr.width ≤ x ∨ scr.height ≤ y then
    (scr, false)
  else
    (scr, (scr.data.getD []).getD (y * scr.width + x) false)

/-- `setScreenPixel` (non-null branch).  A non-`READY` screen is
re-initialized with flags `0` and size 20×20 and `joinReturn(SCREEN_ERROR,0)`
is returned; an out-of-range coordinate returns the bare `0`; otherwise
`scr->data[y*width+x] = value` and `joinReturn(SCREEN_SUCCESS,0)`. -/
def setScreenPixel (scr : Screen) (x y : Nat) (value : Bool) : Screen × Nat :=
  if scr.status ≠ SCREEN_READY then
    ((initScreen scr 0 20 20 true true).1, joinReturn SCREEN_ERROR 0)
  else if scr.width ≤ x ∨ scr.height ≤ y then
    (scr, 0)
  else
    ({ scr with data := scr.data.map (fun d => d.set (y * scr.width + x) value) },
     joinReturn SCREEN_SUCCESS 0)

/-- One iteration of `renderScreen`'s inner loop body up to the store: the six
`getScreenPixel` calls (threading the screen, which those calls may mutate)
and the `boolsToInt` pack.  The loop variables `x`, `y` are C `int`s, and
`getScreenPixel` takes `uint8_t` coordinates, so each coordinate expression is
reduced `% 256` at the call. -/
def renderBlock (scr : Screen) (x y : Nat) : Screen × Nat :=
  let g0 := getScreenPixel scr ((x * 2 + 0) % 256) ((y * 3 + 0) % 256)
  let g1 := getScreenPixel g0.1 ((x * 2 + 1) % 256) ((y * 3 + 0) % 256)
  let g2 := getScreenPixel g1.1 ((x * 2 + 0) % 256) ((y * 3 + 1) % 256)
  let g3 := getScreenPixel g2.1 ((x * 2 + 1) % 256) ((y * 3 + 1) % 256)
  let g4 := getScreenPixel g3.1 ((x * 2 + 0) % 256) ((y * 3 + 2) % 256)
  let g5 := getScreenPixel g4.1 ((x * 2 + 1) % 256) ((y * 3 + 2) % 256)
  (g5.1, boolsToInt [g0.2, g1.2, g2.2, g3.2, g4.2, g5.2])

/-- The body of `renderScreen`'s loops for iteration number `i`: the nested
`for (y) for (x)` loops visit the block coordinates in row-major order, so
iteration `i = y*width + x` has `x = i % width`, `y = i / width`; the packed
block is stored at `scr->render[(y*width)+x]`.  (`renderScreen` does not guard
against `NULL`; storing through a `NULL` `render` pointer has no counterpart
in the value model.) -/
def renderStep (w : Nat) (scr : Screen) (i : Nat) : Screen :=
  let x := i % w
  let y := i / w
  let p := renderBlock scr x y
  { p.1 with render := p.1.render.map (fun r => r.set (y * w + x) p.2) }

/-- `renderScreen` as the fold of `renderStep` over the iteration numbers.
The loop bounds `width = (scr->width/2)+1` and `height = (scr->height/3)+1`
are read once at entry. -/
def renderScreen (scr0 : Screen) : Screen :=
  let w := scr0.width / 2 + 1
  let h := scr0.height / 3 + 1
  (List.range (h * w)).foldl (renderStep w) scr0

/-- `char_map`: the fixed 64-entry glyph table of `gui.c`. -/
def char_map : List String :=
  [" ","𜹰","𜹠","𜺀", "𜹘","𜹸","𜹨","𜺈", "𜹔","𜹴","𜹤","𜺄", "𜹜","𜹼","𜹬","𜺌",
   "𜹒","𜹲","𜹢","𜺂", "𜹚","𜹺","𜹪","𜺊", "𜹖","𜹶","𜹦","𜺆", "𜹞","𜹾","𜹮","𜺎",
   "𜹑","𜹱","𜹡","𜺁", "𜹙","𜹹","𜹩","𜺉", "𜹕","𜹵","𜹥","𜺅", "𜹝","𜹽","𜹭","𜺍",
   "𜹓","𜹳","𜹣","𜺃", "𜹛","𜹻","𜹫","𜺋", "𜹗","𜹷","𜹧","𜺇", "𜹟","𜹿","𜹯","𜺏"]

/-- The value `getScreenPixel` returns on a `READY` screen (which it then
leaves unchanged): the bounds check and the row-major read. -/
def pureGet (scr : Screen) (x y : Nat) : Bool :=
  if scr.width ≤ x ∨ scr.height ≤ y then false
  else (scr.data.getD []).getD (y * scr.width + x) false

/-- `(scr->width/2)+1`, the glyph-grid width used by `renderScreen`. -/
def glyphW (scr : Screen) : Nat := scr.width / 2 + 1

/-- `(scr->height/3)+1`, the glyph-grid height used by `renderScreen`. -/
def glyphH (scr : Screen) : Nat := scr.height / 3 + 1

/-- The glyph index `renderScreen` computes for block `(x, y)` of a `READY`
screen: the pack of the six pixels, with each coordinate reduced `% 256` by
the `uint8_t` parameters of `getScreenPixel`. -/
def cellVal (scr : Screen) (x y : Nat) : Nat :=
  boolsToInt
    [pureGet scr ((x * 2 + 0) % 256) ((y * 3 + 0) % 256),
     pureGet scr ((x * 2 + 1) % 256) ((y * 3 + 0) % 256),
     pureGet scr ((x * 2 + 0) % 256) ((y * 3 + 1) % 256),
     pureGet scr ((x * 2 + 1) % 256) ((y * 3 + 1) % 256),
     pureGet scr ((x * 2 + 0) % 256) ((y * 3 + 2) % 256),
     pureGet scr ((x * 2 + 1) % 256) ((y * 3 + 2) % 256)]

/-- The full glyph grid of a `READY` screen, row-major. -/
def cellsList (scr : Screen) : List Nat :=
  (List.range (glyphH scr * glyphW scr)).map
    (fun i => cellVal scr (i % glyphW scr) (i / glyphW scr))

/-- Well-formedness of a screen value: byte-sized fields actually hold bytes
and the two arrays are allocated with the sizes `initScreen`/`resizeScreen`
give them.  Every screen produced by a successful `initScreen` satisfies
this. -/
def Screen.WF (scr : Screen) : Prop :=
  scr.width < 256 ∧ scr.height < 256 ∧ scr.flags < 256 ∧
  scr.data.isSome = true ∧
  (scr.data.getD []).length = scr.width * scr.height ∧
  scr.render.isSome = true ∧
  (scr.render.getD []).length = (scr.width / 2 + 1) * (scr.height / 3 + 1)

instance (scr : Screen) : Decidable scr.WF := by
  unfold Screen.WF
  infer_instance

/-- A ready screen with the given dimensions and pixel data and an all-zero
glyph array of the matching size. -/
def mkReadyScreen (w h : Nat) (d : List Bool) : Screen :=
  { status := SCREEN_READY, width := w, height := h, flags := 0,
    data := some d,
    render := some (List.replicate ((w / 2 + 1) * (h / 3 + 1)) 0) }

/-- The 2×3 all-on screen of the spec's concrete rendering example. -/
def scrAll3 : Screen := mkReadyScreen 2 3 (List.replicate 6 true)

/-- A 2×255 screen whose only lit pixel is `(0, 1)`: height 255 makes the
bottom block row's coordinates `85*3+1 = 256` and `85*3+2 = 257` wrap to rows
`0` and `1` in `getScreenPixel`'s `uint8_t` parameters. -/
def scrCx : Screen := mkReadyScreen 2 255 ((List.replicate 510 false).set 2 true)

/-- An all-off 4×6 screen used to instantiate the universally quantified
theorems below. -/
def scrW46 : Screen := mkReadyScreen 4 6 (List.replicate 24 false)

/-- A screen whose status byte is not `SCREEN_READY`. -/
def scrBad : Screen :=
  { status := 0, width := 4, height := 6, flags := 0,
    data := some (List.replicate 24 false),
    render := some (List.replicate 9 0) }

/-! Infrastructure lemmas. -/

/-- On a `READY` screen, `getScreenPixel` leaves the screen unchanged and
returns `pureGet`. -/
theorem getScreenPixel_ready {scr : Screen} (h : scr.status = SCREEN_READY) (x y : Nat) :
    getScreenPixel scr x y = (scr, pureGet scr x y) := by
  unfold getScreenPixel pureGet
  rw [if_neg (by simp [h])]
  split <;> rfl

/-- On a `READY` screen, `renderBlock` leaves the screen unchanged and
returns `cellVal`. -/
theorem renderBlock_ready {scr : Screen} (h : scr.status = SCREEN_READY) (x y : Nat) :
    renderBlock scr x y = (scr, cellVal scr x y) := by
  simp only [renderBlock, getScreenPixel_ready h, cellVal]

/-- Setting a list immediately past a full prefix writes the head of the
suffix. -/
theorem set_append_len {α : Type} (a b : List α) (v : α) :
    (a ++ b).set a.length v = a ++ b.set 0 v := by
  induction a with
  | nil => rfl
  | cons x xs ih => simp only [List.cons_append, List.length_cons, List.set_cons_succ, ih]

/-- Folding `set i (f i)` over `range n` on a list of length at least `n`
rewrites the first `n` entries to `map f (range n)`. -/
theorem foldl_set_range (f : Nat → Nat) :
    ∀ (n : Nat) (l : List Nat), n ≤ l.length →
      (List.range n).foldl (fun acc i => acc.set i (f i)) l =
        ((List.range n).map f) ++ l.drop n := by
  intro n
  induction n with
  | zero => intro l _; simp
  | succ m ih =>
    intro l hl
    have hm : m < l.length := Nat.lt_of_succ_le hl
    rw [List.range_succ, List.foldl_append, List.map_append,
      ih l (Nat.le_of_lt hm)]
    simp only [List.foldl_cons, List.foldl_nil, List.map_cons, List.map_nil]
    have hlen : (List.map f (List.range m)).length = m := by simp
    have hset := set_append_len (List.map f (List.range m)) (l.drop m) (f m)
    rw [hlen] at hset
    rw [hset, List.drop_eq_getElem_cons hm, List.set_cons_zero]
    simp

/-- Replacing the `render` field does not change what a block packs to. -/
theorem cellVal_set_render (scr : Screen) (o : Option (List Nat)) (x y : Nat) :
    cellVal { scr with render := o } x y = cellVal scr x y := rfl

/-- One `renderStep` on a `READY` screen only rewrites `render[i]` to the
packed value of block `(i % w, i / w)`. -/
theorem renderStep_eq {scr : Screen} (hst : scr.status = SCREEN_READY) (w i : Nat)
    (r : List Nat) :
    renderStep w { scr with render := some r } i =
      { scr with render := some (r.set i (cellVal scr (i % w) (i / w))) } := by
  have hst' : ({ scr with render := some r } : Screen).status = SCREEN_READY := hst
  simp only [renderStep, renderBlock_ready hst', Option.map_some', cellVal_set_render]
  have hidx : i / w * w + i % w = i := by
    rw [Nat.mul_comm]
    exact Nat.div_add_mod i w
  rw [hidx]

/-- Folding `renderStep` over the first `n` iteration numbers on a `READY`
screen only folds the corresponding `set`s over the `render` list. -/
theorem renderScreen_fold {scr : Screen} (hst : scr.status = SCREEN_READY) (w : Nat) :
    ∀ (n : Nat) (r : List Nat),
      (List.range n).foldl (renderStep w) { scr with render := some r } =
        { scr with render := some ((List.range n).foldl
            (fun acc i => acc.set i (cellVal scr (i % w) (i / w))) r) } := by
  intro n
  induction n with
  | zero => intro r; rfl
  | succ m ih =>
    intro r
    rw [List.range_succ, List.foldl_append, List.foldl_append, ih r]
    simp only [List.foldl_cons, List.foldl_nil]
    exact renderStep_eq hst w m _

/-- On a `READY` screen whose `render` array has the size `initScreen` gives
it, `renderScreen` exactly replaces the `render` contents by the glyph grid
`cellsList` and touches nothing else. -/
theorem renderScreen_eq {scr : Screen} (hst : scr.status = SCREEN_READY)
    (r : List Nat) (hr : scr.render = some r)
    (hlen : r.length = glyphW scr * glyphH scr) :
    renderScreen scr = { scr with render := some (cellsList scr) } := by
  have hscr : ({ scr with render := some r } : Screen) = scr := by rw [← hr]
  show (List.range ((scr.height / 3 + 1) * (scr.width / 2 + 1))).foldl
      (renderStep (scr.width / 2 + 1)) scr = { scr with render := some (cellsList scr) }
  conv_lhs => rw [← hscr]
  rw [renderScreen_fold hst]
  show ({ scr with render := some ((List.range ((scr.height / 3 + 1) * (scr.width / 2 + 1))).foldl
      (fun acc i => acc.set i (cellVal scr (i % (scr.width / 2 + 1)) (i / (scr.width / 2 + 1)))) r) }
      : Screen) = { scr with render := some (cellsList scr) }
  rw [foldl_set_range (fun i => cellVal scr (i % (scr.width / 2 + 1)) (i / (scr.width / 2 + 1)))
    ((scr.height / 3 + 1) * (scr.width / 2 + 1)) r
    (Nat.le_of_eq (by rw [hlen]; exact (Nat.mul_comm _ _).symm))]
  have hdrop : r.drop ((scr.height / 3 + 1) * (scr.width / 2 + 1)) = [] :=
    List.drop_eq_nil_of_le (Nat.le_of_eq (by rw [hlen]; exact Nat.mul_comm _ _))
  rw [hdrop, List.append_nil]
  rfl

/-- The glyph grid has exactly `glyphW * glyphH` cells. -/
theorem cellsList_length (scr : Screen) :
    (cellsList scr).length = glyphW scr * glyphH scr := by
  simp [cellsList, Nat.mul_comm]

/-- Reading the glyph grid at an in-range block coordinate gives that block's
packed value. -/
theorem cellsList_getD {scr : Screen} {gx gy : Nat}
    (hx : gx < glyphW scr) (hy : gy < glyphH scr) :
    (cellsList scr).getD (gy * glyphW scr + gx) 0 = cellVal scr gx gy := by
  have hi : gy * glyphW scr + gx < glyphH scr * glyphW scr := by
    calc gy * glyphW scr + gx < gy * glyphW scr + glyphW scr := Nat.add_lt_add_left hx _
    _ = (gy + 1) * glyphW scr := (Nat.succ_mul gy (glyphW scr)).symm
    _ ≤ glyphH scr * glyphW scr := Nat.mul_le_mul_right _ (Nat.succ_le_of_lt hy)
  have hw : 0 < glyphW scr := Nat.succ_pos _
  have hmod : (gy * glyphW scr + gx) % glyphW scr = gx := by
    rw [Nat.mul_comm gy (glyphW scr), Nat.mul_add_mod]
    exact Nat.mod_eq_of_lt hx
  have hdiv : (gy * glyphW scr + gx) / glyphW scr = gy := by
    rw [Nat.mul_comm gy (glyphW scr), Nat.mul_add_div hw,
      Nat.div_eq_of_lt hx, Nat.add_zero]
  unfold cellsList
  rw [List.getD_eq_getElem?_getD, List.getElem?_map, List.getElem?_range hi]
  simp [hmod, hdiv]

/-- Any read of an all-`false` pixel array gives `false`. -/
theorem getD_replicate_false : ∀ (n i : Nat), (List.replicate n false).getD i false = false := by
  intro n
  induction n with
  | zero => intro i; rfl
  | succ m ih =>
    intro i
    cases i with
    | zero => rfl
    | succ j => simp only [List.replicate]; exact ih j

/-- Every list of six booleans is a literal sextuple. -/
theorem list6_eq (l : List Bool) (h : l.length = 6) :
    ∃ a b c d e f : Bool, l = [a, b, c, d, e, f] := by
  match l, h with
  | [a, b, c, d, e, f], _ => exact ⟨a, b, c, d, e, f, rfl⟩

/-- A packed six-pixel block never exceeds 63. -/
theorem boolsToInt6_le (a b c d e f : Bool) : boolsToInt [a, b, c, d, e, f] ≤ 63 := by
  cases a <;> cases b <;> cases c <;> cases d <;> cases e <;> cases f <;> decide

/-- Claim C2: `boolsToInt` (the spec's `packBlock`) maps a 6-boolean array to
the integer `arr[0]*2^5 + arr[1]*2^4 + … + arr[5]*2^0` (topLeft is bit 5,
bottomRight bit 0); it is a bijection from the 64 six-bit patterns onto
`[0, 64)`: distinct patterns never collide, every value below 64 is attained,
the all-false array maps to 0 and the all-true array maps to 63. -/
theorem claim_C2 :
    (∀ a b c d e f : Bool, boolsToInt [a, b, c, d, e, f] =
      a.toNat * 2 ^ 5 + b.toNat * 2 ^ 4 + c.toNat * 2 ^ 3 +
      d.toNat * 2 ^ 2 + e.toNat * 2 ^ 1 + f.toNat * 2 ^ 0) ∧
    (∀ l1 l2 : List Bool, l1.length = 6 → l2.length = 6 →
      boolsToInt l1 = boolsToInt l2 → l1 = l2) ∧
    (∀ n : Nat, n < 64 → ∃ a b c d e f : Bool, boolsToInt [a, b, c, d, e, f] = n) ∧
    (∀ a b c d e f : Bool, boolsToInt [a, b, c, d, e, f] < 64) ∧
    boolsToInt (List.replicate 6 false) = 0 ∧
    boolsToInt (List.replicate 6 true) = 63 := by
  refine ⟨by decide, ?_, by decide, by decide, by decide, by decide⟩
  intro l1 l2 h1 h2 he
  obtain ⟨a, b, c, d, e, f, rfl⟩ := list6_eq l1 h1
  obtain ⟨a', b', c', d', e', f', rfl⟩ := list6_eq l2 h2
  revert he
  revert a b c d e f a' b' c' d' e' f'
  decide

/-- Instantiation of claim C2's surjectivity at 59 (the spec's example
glyph index). -/
theorem claim_C2_witness :
    ∃ a b c d e f : Bool, boolsToInt [a, b, c, d, e, f] = 59 :=
  claim_C2.2.2.1 59 (by decide)

/-- Claim C10: for every status byte `s` and data byte `d`,
`returnData (joinReturn s d) = d`, and `returnError (joinReturn s d)` is `0`
when `s = SCREEN_SUCCESS` and `s` otherwise; in particular a combined value
whose status byte is 0 (as returned by an out-of-range `setScreenPixel`)
decodes to 0, i.e. no error. -/
theorem claim_C10 (s d : Nat) (hs : s < 256) (hd : d < 256) :
    returnData (joinReturn s d) = d ∧
    returnError (joinReturn s d) = (if s = SCREEN_SUCCESS then 0 else s) ∧
    returnError (joinReturn 0 d) = 0 := by
  have hj : joinReturn s d = s * 256 + d := by
    unfold joinReturn
    rw [Nat.mod_eq_of_lt hs, Nat.mod_eq_of_lt hd]
  have hj0 : joinReturn 0 d = d := by
    unfold joinReturn
    rw [Nat.mod_eq_of_lt hd]
    omega
  refine ⟨?_, ?_, ?_⟩
  · unfold returnData
    rw [hj]
    omega
  · unfold returnError
    rw [hj]
    have h1 : (s * 256 + d) % 65536 = s * 256 + d := Nat.mod_eq_of_lt (by omega)
    rw [h1]
    have h2 : (s * 256 + d) / 256 = s := by omega
    rw [h2]
    have h3 : (s * 256 = SCREEN_SUCCESS_BIT) ↔ (s = SCREEN_SUCCESS) := by
      unfold SCREEN_SUCCESS_BIT SCREEN_SUCCESS
      omega
    simp only [h3]
  · unfold returnError
    rw [hj0]
    have h1 : d % 65536 = d := Nat.mod_eq_of_lt (by omega)
    have h2 : d / 256 = 0 := Nat.div_eq_of_lt hd
    rw [h1, h2]
    decide

/-- Instantiation of claim C10 at status byte 4 (`SCREEN_ERROR`) and data
byte 7. -/
theorem claim_C10_witness :
    returnData (joinReturn 4 7) = 7 ∧
    returnError (joinReturn 4 7) = (if 4 = SCREEN_SUCCESS then 0 else 4) ∧
    returnError (joinReturn 0 7) = 0 :=
  claim_C10 4 7 (by decide) (by decide)

/-- Claim C4: on a `READY` screen, an out-of-range coordinate makes
`getScreenPixel` return `false` with the screen untouched — regardless of the
buffer contents — and makes `setScreenPixel` return the bare `0` with the
whole screen state untouched; `returnError` decodes that `0` as no error. -/
theorem claim_C4 (scr : Screen) (hst : scr.status = SCREEN_READY) (x y : Nat)
    (hxy : scr.width ≤ x ∨ scr.height ≤ y) (v : Bool) :
    getScreenPixel scr x y = (scr, false) ∧
    setScreenPixel scr x y v = (scr, 0) ∧
    returnError (setScreenPixel scr x y v).2 = 0 := by
  have hget : getScreenPixel scr x y = (scr, false) := by
    unfold getScreenPixel
    rw [if_neg (by simp [hst]), if_pos hxy]
  have hset : setScreenPixel scr x y v = (scr, 0) := by
    unfold setScreenPixel
    rw [if_neg (by simp [hst]), if_pos hxy]
  refine ⟨hget, hset, ?_⟩
  rw [hset]
  show returnError 0 = 0
  decide

/-- Instantiation of claim C4 on the 4×6 screen at the out-of-range
coordinate `(9, 0)`. -/
theorem claim_C4_witness :
    getScreenPixel scrW46 9 0 = (scrW46, false) ∧
    setScreenPixel scrW46 9 0 true = (scrW46, 0) ∧
    returnError (setScreenPixel scrW46 9 0 true).2 = 0 :=
  claim_C4 scrW46 rfl 9 0 (Or.inl (by decide)) true

/-- Claim C3: on a `READY`, well-formed screen, writing an in-bounds pixel
with `setScreenPixel` and reading it back with `getScreenPixel` returns the
written value. -/
theorem claim_C3 (scr : Screen) (hst : scr.status = SCREEN_READY) (hwf : scr.WF)
    (x y : Nat) (hx : x < scr.width) (hy : y < scr.height) (v : Bool) :
    (getScreenPixel (setScreenPixel scr x y v).1 x y).2 = v := by
  obtain ⟨hw256, hh256, hf256, hds, hdl, hrs, hrl⟩ := hwf
  obtain ⟨d, hd⟩ := Option.isSome_iff_exists.mp hds
  have hdlen : d.length = scr.width * scr.height := by
    rw [hd] at hdl
    exact hdl
  have hnb : ¬(scr.width ≤ x ∨ scr.height ≤ y) := by
    simp only [not_or, not_le]
    exact ⟨hx, hy⟩
  have hset1 : (setScreenPixel scr x y v).1 =
      { scr with data := some (d.set (y * scr.width + x) v) } := by
    unfold setScreenPixel
    rw [if_neg (by simp [hst]), if_neg hnb]
    simp [hd]
  rw [hset1]
  have hst' : ({ scr with data := some (d.set (y * scr.width + x) v) } : Screen).status =
      SCREEN_READY := hst
  rw [getScreenPixel_ready hst']
  show (if scr.width ≤ x ∨ scr.height ≤ y then false
    else (d.set (y * scr.width + x) v).getD (y * scr.width + x) false) = v
  rw [if_neg hnb]
  have hidx : y * scr.width + x < d.length := by
    rw [hdlen]
    calc y * scr.width + x < (y + 1) * scr.width := by
          rw [Nat.succ_mul]
          exact Nat.add_lt_add_left hx _
    _ ≤ scr.height * scr.width := Nat.mul_le_mul_right _ (Nat.succ_le_of_lt hy)
    _ = scr.width * scr.height := Nat.mul_comm _ _
  rw [List.getD_eq_getElem?_getD, List.getElem?_set_eq_of_lt v hidx]
  rfl

/-- Instantiation of claim C3 on the 4×6 screen at `(1, 2)` with value
`true`. -/
theorem claim_C3_witness :
    (getScreenPixel (setScreenPixel scrW46 1 2 true).1 1 2).2 = true :=
  claim_C3 scrW46 rfl (by decide) 1 2 (by decide) (by decide) true

/-- Claim C5: for every (non-null) screen, `initScreen` allocates a
zero-initialized pixel array of size `width*height` and a glyph-index array of
size `((width/2)+1)*((height/3)+1)`; the returned status byte is
`SCREEN_ERROR` if either allocation fails and `SCREEN_SUCCESS` if both
succeed, so an allocation failure is always signaled to the immediate caller
(`returnError` of the result is nonzero exactly then). -/
theorem claim_C5 (scr : Screen) (flags w h : Nat) (hw : w < 256) (hh : h < 256)
    (dataOk renderOk : Bool) :
    (initScreen scr flags w h dataOk renderOk).1.status = SCREEN_READY ∧
    (dataOk = true → (initScreen scr flags w h dataOk renderOk).1.data =
      some (List.replicate (w * h) false)) ∧
    (renderOk = true → (initScreen scr flags w h dataOk renderOk).1.render =
      some (List.replicate ((w / 2 + 1) * (h / 3 + 1)) 0)) ∧
    ((initScreen scr flags w h dataOk renderOk).2 / 256 =
      if dataOk && renderOk then SCREEN_SUCCESS else SCREEN_ERROR) ∧
    (returnError (initScreen scr flags w h dataOk renderOk).2 =
      if dataOk && renderOk then 0 else SCREEN_ERROR) := by
  refine ⟨rfl, ?_, ?_, ?_, ?_⟩
  · intro hD
    subst hD
    simp [initScreen, Nat.mod_eq_of_lt hw, Nat.mod_eq_of_lt hh]
  · intro hR
    subst hR
    simp [initScreen, Nat.mod_eq_of_lt hw, Nat.mod_eq_of_lt hh]
  · cases dataOk <;> cases renderOk <;>
      show joinReturn _ 0 / 256 = _ <;> decide
  · cases dataOk <;> cases renderOk <;>
      show returnError (joinReturn _ 0) = _ <;> decide

/-- Instantiation of claim C5: failure signaling at a failed pixel
allocation. -/
theorem claim_C5_witness :
    returnError (initScreen scrBad 3 20 20 false true).2 =
      if false && true then 0 else SCREEN_ERROR :=
  (claim_C5 scrBad 3 20 20 (by decide) (by decide) false true).2.2.2.2

/-- Claim C6: after a successful `resizeScreen(scr, w2, h2)` on a previously
initialized (`READY`, well-formed) screen, the dimensions are `w2` and `h2`,
`getScreenPixel` returns `false` at every coordinate (the fresh buffer is
fully cleared, the old storage is replaced), and the resulting screen is
exactly the screen a successful `initScreen` with the same dimensions would
produce, so subsequent `setScreenPixel`/`getScreenPixel` operate against the
new dimensions exactly as after `initScreen`. -/
theorem claim_C6 (scr : Screen) (hst : scr.status = SCREEN_READY) (hwf : scr.WF)
    (w2 h2 : Nat) (hw : w2 < 256) (hh : h2 < 256) :
    (resizeScreen scr w2 h2 true true).1.width = w2 ∧
    (resizeScreen scr w2 h2 true true).1.height = h2 ∧
    (∀ x y : Nat, (getScreenPixel (resizeScreen scr w2 h2 true true).1 x y).2 = false) ∧
    (resizeScreen scr w2 h2 true true).1 = (initScreen scr scr.flags w2 h2 true true).1 := by
  obtain ⟨hw256, hh256, hf256, hds, hdl, hrs, hrl⟩ := hwf
  refine ⟨?_, ?_, ?_, ?_⟩
  · show w2 % 256 = w2
    exact Nat.mod_eq_of_lt hw
  · show h2 % 256 = h2
    exact Nat.mod_eq_of_lt hh
  · intro x y
    have hst' : (resizeScreen scr w2 h2 true true).1.status = SCREEN_READY := hst
    rw [getScreenPixel_ready hst']
    show (if (resizeScreen scr w2 h2 true true).1.width ≤ x ∨
        (resizeScreen scr w2 h2 true true).1.height ≤ y then false
      else (List.replicate (w2 % 256 * (h2 % 256)) false).getD
        (y * (resizeScreen scr w2 h2 true true).1.width + x) false) = false
    split
    · rfl
    · exact getD_replicate_false _ _
  · show ({ scr with
        width := w2 % 256, height := h2 % 256,
        data := some (List.replicate (w2 % 256 * (h2 % 256)) false),
        render := some (List.replicate ((w2 % 256 / 2 + 1) * (h2 % 256 / 3 + 1)) 0) } : Screen) =
      { scr with
        status := SCREEN_READY, flags := scr.flags % 256,
        width := w2 % 256, height := h2 % 256,
        data := some (List.replicate (w2 % 256 * (h2 % 256)) false),
        render := some (List.replicate ((w2 % 256 / 2 + 1) * (h2 % 256 / 3 + 1)) 0) }
    rw [hst, Nat.mod_eq_of_lt hf256]

/-- Instantiation of claim C6: resizing the 4×6 screen to 6×9 equals a fresh
initialization at 6×9. -/
theorem claim_C6_witness :
    (resizeScreen scrW46 6 9 true true).1 = (initScreen scrW46 scrW46.flags 6 9 true true).1 :=
  (claim_C6 scrW46 rfl (by decide) 6 9 (by decide) (by decide)).2.2.2

/-- Claim C8: on a (non-null) screen whose status is not `SCREEN_READY`,
`getScreenPixel` re-initializes the screen to the default 20×20 (flags 0) and
returns `false` without reading any pixel, and `setScreenPixel`
re-initializes the same way and returns a `SCREEN_ERROR` status without
writing the requested pixel (the resulting pixel array is the fresh all-false
one). -/
theorem claim_C8 (scr : Screen) (h : scr.status ≠ SCREEN_READY) (x y : Nat) (v : Bool) :
    getScreenPixel scr x y = ((initScreen scr 0 20 20 true true).1, false) ∧
    setScreenPixel scr x y v =
      ((initScreen scr 0 20 20 true true).1, joinReturn SCREEN_ERROR 0) ∧
    (initScreen scr 0 20 20 true true).1.width = 20 ∧
    (initScreen scr 0 20 20 true true).1.height = 20 ∧
    (initScreen scr 0 20 20 true true).1.status = SCREEN_READY ∧
    (initScreen scr 0 20 20 true true).1.data = some (List.replicate 400 false) ∧
    returnError (setScreenPixel scr x y v).2 = SCREEN_ERROR := by
  have hget : getScreenPixel scr x y = ((initScreen scr 0 20 20 true true).1, false) := by
    unfold getScreenPixel
    rw [if_pos h]
  have hset : setScreenPixel scr x y v =
      ((initScreen scr 0 20 20 true true).1, joinReturn SCREEN_ERROR 0) := by
    unfold setScreenPixel
    rw [if_pos h]
  refine ⟨hget, hset, rfl, rfl, rfl, rfl, ?_⟩
  rw [hset]
  show returnError (joinReturn SCREEN_ERROR 0) = SCREEN_ERROR
  decide

/-- Instantiation of claim C8 on a screen with status byte 0. -/
theorem claim_C8_witness :
    getScreenPixel scrBad 1 2 = ((initScreen scrBad 0 20 20 true true).1, false) :=
  (claim_C8 scrBad (by decide) 1 2 true).1

/-- Claim C1 (amended): for every `READY`, well-formed screen, `renderScreen`
populates exactly `((width/2)+1) * ((height/3)+1)` cells, and the cell at
index `gy*glyphWidth+gx` equals the 6-bit pack of the six pixels read via
`getScreenPixel` at coordinates `((gx*2+{0,1}) % 256, (gy*3+{0,1,2}) % 256)`
— the coordinates are reduced mod 256 because `getScreenPixel` takes
`uint8_t` parameters, so for height 255 the bottom block row wraps around to
rows 0 and 1 instead of reading past the edge; for every other dimension the
wrapped coordinate equals the plain one and blocks extending past the buffer
edge pack `false` for the missing pixels.  The concrete case is unchanged: a
2×3 all-true buffer renders the 2×2 grid `[63, 0, 0, 0]`. -/
theorem claim_C1 :
    (∀ scr : Screen, scr.status = SCREEN_READY → scr.WF →
      ((renderScreen scr).render.getD []).length =
        (scr.width / 2 + 1) * (scr.height / 3 + 1) ∧
      ∀ gx gy : Nat, gx < scr.width / 2 + 1 → gy < scr.height / 3 + 1 →
        ((renderScreen scr).render.getD []).getD (gy * (scr.width / 2 + 1) + gx) 0 =
          boolsToInt
            [(getScreenPixel scr ((gx * 2 + 0) % 256) ((gy * 3 + 0) % 256)).2,
             (getScreenPixel scr ((gx * 2 + 1) % 256) ((gy * 3 + 0) % 256)).2,
             (getScreenPixel scr ((gx * 2 + 0) % 256) ((gy * 3 + 1) % 256)).2,
             (getScreenPixel scr ((gx * 2 + 1) % 256) ((gy * 3 + 1) % 256)).2,
             (getScreenPixel scr ((gx * 2 + 0) % 256) ((gy * 3 + 2) % 256)).2,
             (getScreenPixel scr ((gx * 2 + 1) % 256) ((gy * 3 + 2) % 256)).2]) ∧
    (renderScreen scrAll3).render = some [63, 0, 0, 0] := by
  constructor
  · intro scr hst hwf
    obtain ⟨hw256, hh256, hf256, hds, hdl, hrs, hrl⟩ := hwf
    obtain ⟨r, hr⟩ := Option.isSome_iff_exists.mp hrs
    have hlen : r.length = glyphW scr * glyphH scr := by
      rw [hr] at hrl
      exact hrl
    rw [renderScreen_eq hst r hr hlen]
    constructor
    · show (cellsList scr).length = (scr.width / 2 + 1) * (scr.height / 3 + 1)
      rw [cellsList_length]
      rfl
    · intro gx gy hgx hgy
      show (cellsList scr).getD (gy * glyphW scr + gx) 0 = _
      rw [cellsList_getD hgx hgy]
      simp only [cellVal, getScreenPixel_ready hst]
  · decide

/-- Instantiation of claim C1 at the 2×3 all-true screen, block (0, 0). -/
theorem claim_C1_witness :
    ((renderScreen scrAll3).render.getD []).getD (0 * (scrAll3.width / 2 + 1) + 0) 0 =
      boolsToInt
        [(getScreenPixel scrAll3 ((0 * 2 + 0) % 256) ((0 * 3 + 0) % 256)).2,
         (getScreenPixel scrAll3 ((0 * 2 + 1) % 256) ((0 * 3 + 0) % 256)).2,
         (getScreenPixel scrAll3 ((0 * 2 + 0) % 256) ((0 * 3 + 1) % 256)).2,
         (getScreenPixel scrAll3 ((0 * 2 + 1) % 256) ((0 * 3 + 1) % 256)).2,
         (getScreenPixel scrAll3 ((0 * 2 + 0) % 256) ((0 * 3 + 2) % 256)).2,
         (getScreenPixel scrAll3 ((0 * 2 + 1) % 256) ((0 * 3 + 2) % 256)).2] :=
  (claim_C1.1 scrAll3 rfl (by decide)).2 0 0 (by decide) (by decide)

/-- Claim C1 as originally stated is false: on the `READY`, well-formed
2×255 screen `scrCx` whose only lit pixel is `(0, 1)`, the bottom block row
cell `(0, 85)` is 2 (its coordinates `85*3+1 = 256` and `85*3+2 = 257` wrap
to rows 0 and 1 in `getScreenPixel`'s `uint8_t` parameters, picking up pixel
`(0, 1)`), while the pack of the pixels read via `getScreenPixel` at the
plain coordinates `(0*2+{0,1}, 85*3+{0,1,2})` is 0 — so the cell does not
equal the claimed pack, and the block past the edge does not pack `false`. -/
theorem claim_C1_counterexample :
    ((renderScreen scrCx).render.getD []).getD (85 * (scrCx.width / 2 + 1) + 0) 0 ≠
      boolsToInt
        [(getScreenPixel scrCx (0 * 2 + 0) (85 * 3 + 0)).2,
         (getScreenPixel scrCx (0 * 2 + 1) (85 * 3 + 0)).2,
         (getScreenPixel scrCx (0 * 2 + 0) (85 * 3 + 1)).2,
         (getScreenPixel scrCx (0 * 2 + 1) (85 * 3 + 1)).2,
         (getScreenPixel scrCx (0 * 2 + 0) (85 * 3 + 2)).2,
         (getScreenPixel scrCx (0 * 2 + 1) (85 * 3 + 2)).2] := by
  have hlen : (List.replicate 172 (0 : Nat)).length = glyphW scrCx * glyphH scrCx := by
    decide
  rw [renderScreen_eq rfl (List.replicate 172 0) rfl hlen]
  show (cellsList scrCx).getD (85 * glyphW scrCx + 0) 0 ≠ _
  rw [cellsList_getD (by decide) (by decide)]
  decide

/-- Claim C7: on a `READY`, well-formed screen, `renderScreen` modifies only
the `render` array — status, width, height, flags and the pixel data are
unchanged — and it is a deterministic function of the pixel buffer, so
rendering twice without touching the buffer yields identical render-array
contents. -/
theorem claim_C7 (scr : Screen) (hst : scr.status = SCREEN_READY) (hwf : scr.WF) :
    (renderScreen scr).status = scr.status ∧
    (renderScreen scr).width = scr.width ∧
    (renderScreen scr).height = scr.height ∧
    (renderScreen scr).flags = scr.flags ∧
    (renderScreen scr).data = scr.data ∧
    (renderScreen (renderScreen scr)).render = (renderScreen scr).render := by
  obtain ⟨hw256, hh256, hf256, hds, hdl, hrs, hrl⟩ := hwf
  obtain ⟨r, hr⟩ := Option.isSome_iff_exists.mp hrs
  have hlen : r.length = glyphW scr * glyphH scr := by
    rw [hr] at hrl
    exact hrl
  have h1 := renderScreen_eq hst r hr hlen
  rw [h1]
  refine ⟨rfl, rfl, rfl, rfl, rfl, ?_⟩
  have hst2 : ({ scr with render := some (cellsList scr) } : Screen).status =
      SCREEN_READY := hst
  have hlen2 : (cellsList scr).length =
      glyphW { scr with render := some (cellsList scr) } *
      glyphH { scr with render := some (cellsList scr) } := cellsList_length scr
  have h2 := renderScreen_eq hst2 (cellsList scr) rfl hlen2
  rw [h2]
  rfl

/-- Instantiation of claim C7's idempotence at the 4×6 screen. -/
theorem claim_C7_witness :
    (renderScreen (renderScreen scrW46)).render = (renderScreen scrW46).render :=
  (claim_C7 scrW46 rfl (by decide)).2.2.2.2.2

/-- Claim C9: on a `READY`, well-formed screen, every value `renderScreen`
stores into the render array is at most 63, hence a valid index into the
64-entry `char_map` glyph table, so the table lookup in `printScreen` cannot
go out of range. -/
theorem claim_C9 (scr : Screen) (hst : scr.status = SCREEN_READY) (hwf : scr.WF) :
    ∀ v ∈ (renderScreen scr).render.getD [], v ≤ 63 ∧ v < char_map.length := by
  obtain ⟨hw256, hh256, hf256, hds, hdl, hrs, hrl⟩ := hwf
  obtain ⟨r, hr⟩ := Option.isSome_iff_exists.mp hrs
  have hlen : r.length = glyphW scr * glyphH scr := by
    rw [hr] at hrl
    exact hrl
  rw [renderScreen_eq hst r hr hlen]
  intro v hv
  show v ≤ 63 ∧ v < char_map.length
  obtain ⟨i, _, rfl⟩ := List.mem_map.mp hv
  have hle : cellVal scr (i % glyphW scr) (i / glyphW scr) ≤ 63 := boolsToInt6_le _ _ _ _ _ _
  have hcm : char_map.length = 64 := by decide
  exact ⟨hle, by omega⟩

/-- Instantiation of claim C9 at the 4×6 screen. -/
theorem claim_C9_witness : (0 : Nat) ≤ 63 ∧ (0 : Nat) < char_map.length :=
  claim_C9 scrW46 rfl (by decide) 0 (by decide)
